import Mathlib

/-!
Verification of the ESPSensor firmware's sensor sampling and filtering
subsystem.  The C++ sources are embedded shallowly:

* `MovingAverage` mirrors `src/include/MovingAverage.h`: the template
  `MovingAverage<T, SIZE>` instantiated with exact rational arithmetic in
  place of the C++ `float`; `SIZE` is passed to the operations that use it.
* `SensorBase` mirrors the state and methods of `src/include/SensorBase.h`.
* `SHT30Sensor`, `HC_SR04Sensor`, `PHSensor` mirror the three drivers.
  Hardware inputs (device readings, echo durations, ADC voltages, the
  `millis()` clock) are passed as explicit parameters to `read`.
-/

namespace ESP

/-- One recorded sample event of a `MovingAverage` window: `add v`
models `add(value)` (a successful reading), `addFailure` models
`addFailure()` (a failed reading). -/
inductive MAOp where
  | add (v : ℚ)
  | addFailure
deriving DecidableEq

/-- Whether the event was a successful `add`. -/
def MAOp.isAdd : MAOp → Bool
  | .add _ => true
  | .addFailure => false

/-- The (value, validity) pair an event writes into its buffer slot:
`add v` writes `(v, true)`, `addFailure` writes the sentinel `(0, false)`. -/
def MAOp.toPair : MAOp → ℚ × Bool
  | .add v => (v, true)
  | .addFailure => ((0 : ℚ), false)

/-- State of `MovingAverage<T, SIZE>` (MovingAverage.h, lines 11-19),
with `T` embedded as `ℚ`.  The arrays are lists whose length `SIZE`
is maintained by the operations. -/
structure MovingAverage where
  buffer : List ℚ
  validBuffer : List Bool
  index : Nat
  count : Nat
  sum : ℚ
  validCount : Nat
deriving DecidableEq

/-- The freshly constructed state (MovingAverage.h constructor, lines 22-27). -/
def MovingAverage.init (SIZE : Nat) : MovingAverage :=
  { buffer := List.replicate SIZE 0
    validBuffer := List.replicate SIZE false
    index := 0
    count := 0
    sum := 0
    validCount := 0 }

/-- `MovingAverage::addReading(value, isValid)` (MovingAverage.h, lines 49-73):
evict the slot at the write cursor, write the new entry, update `sum`,
`validCount`, the cursor, and the saturating `count`. -/
def MovingAverage.addReading (SIZE : Nat) (m : MovingAverage) (value : ℚ)
    (isValid : Bool) : MovingAverage :=
  let evict := m.validBuffer.getD m.index false
  let sum1 := if evict then m.sum - m.buffer.getD m.index 0 else m.sum
  let vc1 := if evict then m.validCount - 1 else m.validCount
  { buffer := m.buffer.set m.index (if isValid then value else 0)
    validBuffer := m.validBuffer.set m.index isValid
    index := (m.index + 1) % SIZE
    count := if m.count < SIZE then m.count + 1 else m.count
    sum := if isValid then sum1 + value else sum1
    validCount := if isValid then vc1 + 1 else vc1 }

/-- `MovingAverage::add(value)` (MovingAverage.h, lines 33-35). -/
def MovingAverage.add (SIZE : Nat) (m : MovingAverage) (value : ℚ) : MovingAverage :=
  m.addReading SIZE value true

/-- `MovingAverage::addFailure()` (MovingAverage.h, lines 40-42). -/
def MovingAverage.addFailure (SIZE : Nat) (m : MovingAverage) : MovingAverage :=
  m.addReading SIZE 0 false

/-- `MovingAverage::getAverage()` (MovingAverage.h, lines 79-84):
`sum / validCount`, or `0` when `validCount == 0`. -/
def MovingAverage.getAverage (m : MovingAverage) : ℚ :=
  if m.validCount = 0 then 0 else m.sum / (m.validCount : ℚ)

/-- `MovingAverage::isFull()` (MovingAverage.h, lines 90-92). -/
def MovingAverage.isFull (SIZE : Nat) (m : MovingAverage) : Bool :=
  decide (SIZE ≤ m.count)

/-- `MovingAverage::getCount()` (MovingAverage.h, lines 112-114). -/
def MovingAverage.getCount (m : MovingAverage) : Nat := m.count

/-- `MovingAverage::getValidCount()` (MovingAverage.h, lines 120-122). -/
def MovingAverage.getValidCount (m : MovingAverage) : Nat := m.validCount

/-- `MovingAverage::hasValidMajority()` (MovingAverage.h, lines 128-131):
false when `count == 0`, otherwise `validCount > count / 2` with
truncating natural division. -/
def MovingAverage.hasValidMajority (m : MovingAverage) : Bool :=
  if m.count = 0 then false else decide (m.count / 2 < m.validCount)

/-- `MovingAverage::getSuccessRate()` (MovingAverage.h, lines 137-140):
`100 * validCount / count`, or `0` when `count == 0`. -/
def MovingAverage.getSuccessRate (m : MovingAverage) : ℚ :=
  if m.count = 0 then 0 else (m.validCount : ℚ) / (m.count : ℚ) * 100

/-- Apply one sample event to a window. -/
def MovingAverage.applyOp (SIZE : Nat) (m : MovingAverage) : MAOp → MovingAverage
  | .add v => m.add SIZE v
  | .addFailure => m.addFailure SIZE

/-- The window state after a sequence of `add`/`addFailure` calls starting
from the freshly constructed state. -/
def MovingAverage.run (SIZE : Nat) (ops : List MAOp) : MovingAverage :=
  ops.foldl (MovingAverage.applyOp SIZE) (MovingAverage.init SIZE)

/-- The contribution of one buffer slot to the sum: its value if the slot
is valid, `0` otherwise. -/
def contribution (p : ℚ × Bool) : ℚ := if p.2 then p.1 else 0

/-- Arithmetic sum of a list of (value, validity) slots over the valid ones. -/
def sumPairs (l : List (ℚ × Bool)) : ℚ := (l.map contribution).sum

/-- Number of valid slots in a list of (value, validity) slots. -/
def countTrues (l : List (ℚ × Bool)) : Nat := l.countP (fun p => p.2)

/-- The buffer of a window state as a single list of (value, validity) slots. -/
def MovingAverage.pairs (m : MovingAverage) : List (ℚ × Bool) :=
  m.buffer.zip m.validBuffer

/-- The arithmetic sum of `buffer[i]` over exactly those slots `i` with
`validBuffer[i]` true. -/
def MovingAverage.sumValid (m : MovingAverage) : ℚ := sumPairs m.pairs

/-- The last `n` elements of a list. -/
def lastN (n : Nat) (l : List α) : List α := l.drop (l.length - n)

/-- The slots a window of capacity `SIZE` holds after a sequence of events:
the last `SIZE` entries of the event history, preceded by enough copies of
the invalid sentinel slot to fill an incompletely warmed-up window. -/
def windowPairs (SIZE : Nat) (ops : List MAOp) : List (ℚ × Bool) :=
  lastN SIZE (List.replicate SIZE ((0 : ℚ), false) ++ ops.map MAOp.toPair)

/-- Largest value of a 32-bit `unsigned long` (the ESP32 `millis()` type). -/
def ULONG_MAX : Nat := 4294967295

/-- `TEMP_HUMIDITY_WINDOW` (config.h, line 58). -/
def TEMP_HUMIDITY_WINDOW : Nat := 15

/-- `TEMP_MIN` (config.h, line 63). -/
def TEMP_MIN : ℚ := 0

/-- `TEMP_MAX` (config.h, line 64). -/
def TEMP_MAX : ℚ := 50

/-- `HUMIDITY_MIN` (config.h, line 65). -/
def HUMIDITY_MIN : ℚ := 0

/-- `HUMIDITY_MAX` (config.h, line 66). -/
def HUMIDITY_MAX : ℚ := 100

/-- `CONTAINER_HEIGHT_CM` (config.h, line 75). -/
def CONTAINER_HEIGHT_CM : ℚ := 38

/-- `MIN_WATER_LEVEL_CM` (config.h, line 76). -/
def MIN_WATER_LEVEL_CM : ℚ := 2

/-- `MAX_WATER_LEVEL_CM` (config.h, line 77). -/
def MAX_WATER_LEVEL_CM : ℚ := 35

/-- `PH_CAL_MID` (config.h, line 94). -/
def PH_CAL_MID : ℚ := 1420

/-- `PH_CAL_LOW` (config.h, line 95). -/
def PH_CAL_LOW : ℚ := 1880

/-- `PH_CAL_HIGH` (config.h, line 96). -/
def PH_CAL_HIGH : ℚ := 955

/-- `PH_MIN` (config.h, line 69). -/
def PH_MIN : ℚ := 0

/-- `PH_MAX` (config.h, line 70). -/
def PH_MAX : ℚ := 14

/-- A C++ `float` reading: either NaN or a finite value (embedded exactly). -/
inductive FloatVal where
  | nan
  | val (x : ℚ)
deriving DecidableEq

/-- `isnan` on an embedded float reading. -/
def FloatVal.isnan : FloatVal → Bool
  | .nan => true
  | .val _ => false

/-- State of the `SensorBase` class (SensorBase.h, lines 14-24).  The
optional base moving average always has window size 15
(`MovingAverage<float, 15>* movingAverage`). -/
structure SensorBase where
  initialized : Bool
  lastReadSuccess : Bool
  lastSuccessfulReadTime : Nat
  useMovingAverage : Bool
  movingAverage : Option MovingAverage
deriving DecidableEq

/-- The `SensorBase` constructor (SensorBase.h, lines 31-37): allocates the
15-sample base window exactly when `enableAvg` is set. -/
def SensorBase.mkBase (enableAvg : Bool) : SensorBase :=
  { initialized := false
    lastReadSuccess := false
    lastSuccessfulReadTime := 0
    useMovingAverage := enableAvg
    movingAverage := if enableAvg then some (MovingAverage.init 15) else none }

/-- `SensorBase::addToAverage(value)` (SensorBase.h, lines 89-95). -/
def SensorBase.addToAverage (s : SensorBase) (value : ℚ) : SensorBase :=
  if s.useMovingAverage then
    { s with movingAverage := s.movingAverage.map (fun m => m.add 15 value) }
  else s

/-- `SensorBase::addFailureToAverage()` (SensorBase.h, lines 101-107). -/
def SensorBase.addFailureToAverage (s : SensorBase) : SensorBase :=
  if s.useMovingAverage then
    { s with movingAverage := s.movingAverage.map (fun m => m.addFailure 15) }
  else s

/-- `SensorBase::getAverage(defaultValue)` (SensorBase.h, lines 114-119). -/
def SensorBase.getAverage (s : SensorBase) (defaultValue : ℚ) : ℚ :=
  match s.useMovingAverage, s.movingAverage with
  | true, some m => m.getAverage
  | _, _ => defaultValue

/-- `SensorBase::hasValidMajority()` (SensorBase.h, lines 144-149): consults
the base window when enabled, otherwise falls back to `lastReadSuccess`. -/
def SensorBase.hasValidMajority (s : SensorBase) : Bool :=
  match s.useMovingAverage, s.movingAverage with
  | true, some m => m.hasValidMajority
  | _, _ => s.lastReadSuccess

/-- `SensorBase::getSuccessRate()` (SensorBase.h, lines 155-160): consults
the base window when enabled, otherwise `100.0` or `0.0` from the last
read's success flag. -/
def SensorBase.getSuccessRate (s : SensorBase) : ℚ :=
  match s.useMovingAverage, s.movingAverage with
  | true, some m => m.getSuccessRate
  | _, _ => if s.lastReadSuccess then 100 else 0

/-- `SensorBase::markSuccessfulRead()` (SensorBase.h, lines 177-180), with
the `millis()` value at the call passed as `now`. -/
def SensorBase.markSuccessfulRead (s : SensorBase) (now : Nat) : SensorBase :=
  { s with lastReadSuccess := true, lastSuccessfulReadTime := now }

/-- `SensorBase::markFailedRead()` (SensorBase.h, lines 186-189): does not
touch `lastSuccessfulReadTime`. -/
def SensorBase.markFailedRead (s : SensorBase) : SensorBase :=
  { s with lastReadSuccess := false }

/-- `SensorBase::isDataFresh(maxAgeMs)` (SensorBase.h, lines 196-210), with
the `millis()` value at the call passed as `now`. -/
def SensorBase.isDataFresh (s : SensorBase) (now maxAgeMs : Nat) : Bool :=
  if s.lastSuccessfulReadTime = 0 then false
  else if now < s.lastSuccessfulReadTime then false
  else decide (now - s.lastSuccessfulReadTime ≤ maxAgeMs)

/-- A freshness-relevant event on a `SensorBase`: a successful read marked
at clock value `t`, or a failed read. -/
inductive FreshEvent where
  | success (t : Nat)
  | failure
deriving DecidableEq

/-- Apply one freshness event (`markSuccessfulRead` at its clock value, or
`markFailedRead`). -/
def SensorBase.applyFresh (s : SensorBase) : FreshEvent → SensorBase
  | .success t => s.markSuccessfulRead t
  | .failure => s.markFailedRead

/-- The `SensorBase` state after a sequence of marked reads starting from
the constructed state. -/
def SensorBase.runFresh (enableAvg : Bool) (events : List FreshEvent) : SensorBase :=
  events.foldl SensorBase.applyFresh (SensorBase.mkBase enableAvg)

/-- The clock value of the last successful read in an event sequence, if any. -/
def lastSuccessTime : List FreshEvent → Option Nat
  | [] => none
  | e :: es =>
    match lastSuccessTime es with
    | some t => some t
    | none => match e with
      | .success t => some t
      | .failure => none

/-- State of the `SHT30Sensor` driver (SHT30Sensor.h, lines 15-27): the base
state (constructed with the base moving average disabled) plus the two
per-channel windows of size `TEMP_HUMIDITY_WINDOW` and the cached values. -/
structure SHT30Sensor where
  base : SensorBase
  tempAvg : MovingAverage
  humidityAvg : MovingAverage
  currentTemp : ℚ
  currentHumidity : ℚ
deriving DecidableEq

/-- The `SHT30Sensor` constructor (SHT30Sensor.h, line 27):
`SensorBase("SHT30")` uses the default `enableAvg = false`. -/
def SHT30Sensor.mkSensor : SHT30Sensor :=
  { base := SensorBase.mkBase false
    tempAvg := MovingAverage.init TEMP_HUMIDITY_WINDOW
    humidityAvg := MovingAverage.init TEMP_HUMIDITY_WINDOW
    currentTemp := 0
    currentHumidity := 0 }

/-- The common failure path of `SHT30Sensor::read()`: record a failure on
both channel windows and clear `lastReadSuccess`. -/
def SHT30Sensor.recordFailure (s : SHT30Sensor) : SHT30Sensor :=
  { s with tempAvg := s.tempAvg.addFailure TEMP_HUMIDITY_WINDOW
           humidityAvg := s.humidityAvg.addFailure TEMP_HUMIDITY_WINDOW
           base := { s.base with lastReadSuccess := false } }

/-- `SHT30Sensor::read()` (SHT30Sensor.h, lines 51-106).  The device
readings `temp`/`humidity` and the `millis()` value `now` are inputs.
Returns the new state and the C++ return value. -/
def SHT30Sensor.read (s : SHT30Sensor) (temp humidity : FloatVal) (now : Nat) :
    SHT30Sensor × Bool :=
  if s.base.initialized = false then (s.recordFailure, false)
  else if temp.isnan || humidity.isnan then (s.recordFailure, false)
  else
    match temp, humidity with
    | .nan, _ => (s.recordFailure, false)
    | _, .nan => (s.recordFailure, false)
    | .val t, .val h =>
      if t < TEMP_MIN ∨ TEMP_MAX < t then (s.recordFailure, false)
      else if h < HUMIDITY_MIN ∨ HUMIDITY_MAX < h then (s.recordFailure, false)
      else
        let tempAvg := s.tempAvg.addReading TEMP_HUMIDITY_WINDOW t true
        let humidityAvg := s.humidityAvg.addReading TEMP_HUMIDITY_WINDOW h true
        ({ s with tempAvg := tempAvg
                  humidityAvg := humidityAvg
                  currentTemp := tempAvg.getAverage
                  currentHumidity := humidityAvg.getAverage
                  base := { s.base with lastReadSuccess := true } }, true)

/-- `SHT30Sensor::hasValidTemperatureMajority()` (SHT30Sensor.h, 146-148). -/
def SHT30Sensor.hasValidTemperatureMajority (s : SHT30Sensor) : Bool :=
  s.tempAvg.hasValidMajority

/-- `SHT30Sensor::hasValidHumidityMajority()` (SHT30Sensor.h, 154-156). -/
def SHT30Sensor.hasValidHumidityMajority (s : SHT30Sensor) : Bool :=
  s.humidityAvg.hasValidMajority

/-- An externally observable event on an `SHT30Sensor`: `begin()` with the
device's initialization outcome, or `read()` with the device readings. -/
inductive SHT30Event where
  | start (deviceOk : Bool)
  | read (temp humidity : FloatVal) (now : Nat)
deriving DecidableEq

/-- `SHT30Sensor::begin()` (SHT30Sensor.h, lines 33-45): `initialized`
tracks whether the bus transaction succeeded. -/
def SHT30Sensor.beginSensor (s : SHT30Sensor) (deviceOk : Bool) : SHT30Sensor × Bool :=
  if deviceOk then ({ s with base := { s.base with initialized := true } }, true)
  else ({ s with base := { s.base with initialized := false } }, false)

/-- Apply one `SHT30Sensor` event. -/
def SHT30Sensor.applyEvent (s : SHT30Sensor) : SHT30Event → SHT30Sensor
  | .start ok => (s.beginSensor ok).1
  | .read t h now => (s.read t h now).1

/-- The `SHT30Sensor` state after a sequence of events starting from the
constructed state. -/
def SHT30Sensor.runEvents (events : List SHT30Event) : SHT30Sensor :=
  events.foldl SHT30Sensor.applyEvent SHT30Sensor.mkSensor

/-- State of the `HC_SR04Sensor` driver (HC_SR04Sensor.h, lines 16-21):
the base state (constructed with the base moving average enabled) plus the
cached water level and last raw distance. -/
structure HC_SR04Sensor where
  base : SensorBase
  currentWaterLevel : ℚ
  lastRawDistance : ℚ
deriving DecidableEq

/-- The `HC_SR04Sensor` constructor (HC_SR04Sensor.h, lines 76-77):
`SensorBase("HC-SR04", true)` enables the base moving average. -/
def HC_SR04Sensor.mkSensor : HC_SR04Sensor :=
  { base := SensorBase.mkBase true
    currentWaterLevel := 0
    lastRawDistance := 0 }

/-- `HC_SR04Sensor::measureRawDistance()` (HC_SR04Sensor.h, lines 27-49)
as a function of the measured echo duration in microseconds: `-1` on a
zero duration (timeout), otherwise `duration * 0.343 / 2` millimeters. -/
def HC_SR04Sensor.measureRawDistance (duration : Nat) : ℚ :=
  if duration = 0 then -1 else (duration : ℚ) * 0.343 / 2

/-- `HC_SR04Sensor::convertToWaterLevel(distanceMm)` (HC_SR04Sensor.h,
lines 56-68): `-1` propagates errors, otherwise
`CONTAINER_HEIGHT_CM - distanceMm / 10` centimeters. -/
def HC_SR04Sensor.convertToWaterLevel (distanceMm : ℚ) : ℚ :=
  if distanceMm < 0 then -1 else CONTAINER_HEIGHT_CM - distanceMm / 10

/-- The body of `HC_SR04Sensor::read()` after the initialization check
(HC_SR04Sensor.h, lines 119-163), as a function of the measured raw
distance. -/
def HC_SR04Sensor.readWithRaw (s : HC_SR04Sensor) (rawDistance : ℚ) :
    HC_SR04Sensor × Bool :=
  let s := { s with lastRawDistance := rawDistance }
  if rawDistance < 0 then
    ({ s with base := { s.base.addFailureToAverage with lastReadSuccess := false } },
     false)
  else
    let waterLevel := HC_SR04Sensor.convertToWaterLevel rawDistance
    if waterLevel < MIN_WATER_LEVEL_CM ∨ MAX_WATER_LEVEL_CM < waterLevel then
      ({ s with base := { s.base.addFailureToAverage with lastReadSuccess := false } },
       false)
    else
      let base := s.base.addToAverage waterLevel
      ({ s with base := { base with lastReadSuccess := true }
                currentWaterLevel := base.getAverage waterLevel }, true)

/-- `HC_SR04Sensor::read()` (HC_SR04Sensor.h, lines 112-163).  The echo
duration and the `millis()` value `now` are inputs.  On an uninitialized
sensor the code only calls `markFailedRead()` and returns. -/
def HC_SR04Sensor.read (s : HC_SR04Sensor) (duration : Nat) (now : Nat) :
    HC_SR04Sensor × Bool :=
  if s.base.initialized = false then
    ({ s with base := s.base.markFailedRead }, false)
  else s.readWithRaw (HC_SR04Sensor.measureRawDistance duration)

/-- An `HC_SR04Sensor` with `begin()` performed (HC_SR04Sensor.h, lines
83-106: `begin` always sets `initialized` and returns true). -/
def HC_SR04Sensor.mkInitialized : HC_SR04Sensor :=
  { HC_SR04Sensor.mkSensor with
      base := { HC_SR04Sensor.mkSensor.base with initialized := true } }

/-- State of the `PHSensor` driver (PHSensor.h, lines 14-17): the base state
(constructed with the base moving average enabled) plus the cached pH. -/
structure PHSensor where
  base : SensorBase
  currentPH : ℚ
deriving DecidableEq

/-- The `PHSensor` constructor (PHSensor.h, line 76):
`SensorBase("pH", true)` enables the base moving average;
`currentPH` starts at `7.0`. -/
def PHSensor.mkSensor : PHSensor :=
  { base := SensorBase.mkBase true
    currentPH := 7 }

/-- `PHSensor::readPHFromVoltage(voltage_mV)` (PHSensor.h, lines 24-35):
the two-segment piecewise-linear calibration. -/
def PHSensor.readPHFromVoltage (voltage_mV : ℚ) : ℚ :=
  if PH_CAL_MID < voltage_mV then
    7 - 3 / (PH_CAL_LOW - PH_CAL_MID) * (voltage_mV - PH_CAL_MID)
  else
    7 - 3 / (PH_CAL_MID - PH_CAL_HIGH) * (voltage_mV - PH_CAL_MID)

/-- `PHSensor::read()` (PHSensor.h, lines 130-161).  The averaged measured
voltage (in millivolts, the result of the ADC burst in `readPH`) and the
`millis()` value `now` are inputs. -/
def PHSensor.read (s : PHSensor) (voltage_mV : ℚ) (now : Nat) : PHSensor × Bool :=
  if s.base.initialized = false then
    ({ s with base := { s.base.addFailureToAverage with lastReadSuccess := false } },
     false)
  else
    let ph := PHSensor.readPHFromVoltage voltage_mV
    if ph < PH_MIN ∨ PH_MAX < ph then
      ({ s with base := { s.base.addFailureToAverage with lastReadSuccess := false } },
       false)
    else
      let base := s.base.addToAverage ph
      ({ s with base := { base with lastReadSuccess := true }
                currentPH := base.getAverage ph }, true)

/-- A `PHSensor` with `begin()` performed (PHSensor.h, lines 82-124:
`begin` always sets `initialized` and returns true). -/
def PHSensor.mkInitialized : PHSensor :=
  { PHSensor.mkSensor with
      base := { PHSensor.mkSensor.base with initialized := true } }

/-- An `SHT30Sensor` with a successful `begin()` performed. -/
def SHT30Sensor.mkInitialized : SHT30Sensor :=
  { SHT30Sensor.mkSensor with
      base := { SHT30Sensor.mkSensor.base with initialized := true } }

/-- The spec-side validity predicate for one SHT30 reading pair: both
values are finite (not NaN) and within their configured ranges. -/
def pairInRange (temp humidity : FloatVal) : Prop :=
  (∃ t, temp = FloatVal.val t ∧ TEMP_MIN ≤ t ∧ t ≤ TEMP_MAX) ∧
  (∃ h, humidity = FloatVal.val h ∧ HUMIDITY_MIN ≤ h ∧ h ≤ HUMIDITY_MAX)

/-- The inductive invariant tying a window state reached by an event
sequence to the trace-level view of the window: the ring buffer, rotated
to start at the write cursor, lists exactly the last `SIZE` slots of the
(sentinel-padded) history, and `sum`, `validCount`, `count`, `index` agree
with that view. -/
structure WindowInv (SIZE : Nat) (ops : List MAOp) (m : MovingAverage) : Prop where
  hbuf : m.buffer.length = SIZE
  hvb : m.validBuffer.length = SIZE
  hidx : m.index = ops.length % SIZE
  hwin : m.pairs.rotate m.index = windowPairs SIZE ops
  hcount : m.count = min ops.length SIZE
  hsum : m.sum = sumPairs (windowPairs SIZE ops)
  hvc : m.validCount = countTrues (windowPairs SIZE ops)

theorem getD_of_lt {α : Type} (l : List α) (i : Nat) (d : α) (h : i < l.length) :
    l.getD i d = l[i] := by
  simp [List.getD_eq_getElem?_getD, List.getElem?_eq_getElem h]

theorem run_append (SIZE : Nat) (ops : List MAOp) (op : MAOp) :
    MovingAverage.run SIZE (ops ++ [op]) =
      (MovingAverage.run SIZE ops).applyOp SIZE op := by
  simp [MovingAverage.run, List.foldl_append]

theorem applyOp_eq (SIZE : Nat) (m : MovingAverage) (op : MAOp) :
    m.applyOp SIZE op = m.addReading SIZE op.toPair.1 op.toPair.2 := by
  cases op <;> rfl

theorem contribution_toPair (op : MAOp) :
    contribution op.toPair = if op.toPair.2 then op.toPair.1 else 0 := by
  cases op <;> simp [contribution, MAOp.toPair]

theorem snd_toPair (op : MAOp) : op.toPair.2 = op.isAdd := by
  cases op <;> rfl

theorem sumPairs_nil : sumPairs [] = 0 := rfl

theorem sumPairs_cons (p : ℚ × Bool) (l : List (ℚ × Bool)) :
    sumPairs (p :: l) = contribution p + sumPairs l := by
  simp [sumPairs]

theorem sumPairs_append (l₁ l₂ : List (ℚ × Bool)) :
    sumPairs (l₁ ++ l₂) = sumPairs l₁ + sumPairs l₂ := by
  simp [sumPairs]

theorem countTrues_nil : countTrues [] = 0 := rfl

theorem countTrues_cons (p : ℚ × Bool) (l : List (ℚ × Bool)) :
    countTrues (p :: l) = (if p.2 then 1 else 0) + countTrues l := by
  by_cases h : p.2 = true <;> simp [countTrues, List.countP_cons, h] <;> omega

theorem countTrues_append (l₁ l₂ : List (ℚ × Bool)) :
    countTrues (l₁ ++ l₂) = countTrues l₁ + countTrues l₂ := by
  simp [countTrues, List.countP_append]

theorem length_windowPairs (SIZE : Nat) (ops : List MAOp) :
    (windowPairs SIZE ops).length = SIZE := by
  simp [windowPairs, lastN]

theorem windowPairs_nil (SIZE : Nat) :
    windowPairs SIZE [] = List.replicate SIZE ((0 : ℚ), false) := by
  simp [windowPairs, lastN]

theorem lastN_snoc {α : Type} (n : Nat) (l : List α) (x : α) (hn : 0 < n)
    (hl : n ≤ l.length) :
    lastN n (l ++ [x]) = (lastN n l).drop 1 ++ [x] := by
  unfold lastN
  have h1 : l.length + 1 - n = (l.length - n) + 1 := by omega
  have h2 : (l.length - n) + 1 ≤ l.length := by omega
  simp only [List.length_append, List.length_cons, List.length_nil]
  rw [h1, List.drop_append_of_le_length h2, List.drop_drop]

theorem windowPairs_snoc (SIZE : Nat) (ops : List MAOp) (op : MAOp) (hS : 0 < SIZE) :
    windowPairs SIZE (ops ++ [op]) =
      (windowPairs SIZE ops).drop 1 ++ [op.toPair] := by
  unfold windowPairs
  rw [List.map_append, List.map_singleton, ← List.append_assoc]
  exact lastN_snoc SIZE _ _ hS (by simp)

theorem add_mod_eq_self_iff {S i k : Nat} (hi : i < S) (hk : k < S) :
    ((k + i) % S = i ↔ k = 0) := by
  constructor
  · intro h
    by_cases hlt : k + i < S
    · rw [Nat.mod_eq_of_lt hlt] at h; omega
    · have hge : S ≤ k + i := by omega
      have h2 : (k + i) % S = (k + i - S) % S := Nat.mod_eq_sub_mod hge
      have h3 : (k + i - S) % S = k + i - S := Nat.mod_eq_of_lt (by omega)
      rw [h2, h3] at h
      omega
  · intro h; subst h; simpa using Nat.mod_eq_of_lt hi

theorem rotate_set {α : Type} (l : List α) (i : Nat) (x : α) (h : i < l.length) :
    (l.set i x).rotate i = (l.rotate i).set 0 x := by
  apply List.ext_getElem
  · simp
  · intro k h₁ h₂
    have hk : k < l.length := by simpa using h₁
    rw [List.getElem_rotate]
    simp only [List.length_set]
    rw [List.getElem_set, List.getElem_set]
    by_cases hk0 : k = 0
    · subst hk0
      simp [Nat.mod_eq_of_lt h]
    · have hne : ¬ (i = (k + i) % l.length) := fun hc =>
        hk0 ((add_mod_eq_self_iff h hk).mp hc.symm)
      rw [if_neg hne, if_neg (fun hc => hk0 hc.symm)]
      rw [List.getElem_rotate]

theorem zip_set {α β : Type} (l₁ : List α) (l₂ : List β) (i : Nat) (a : α) (b : β) :
    (l₁.set i a).zip (l₂.set i b) = (l₁.zip l₂).set i (a, b) := by
  induction l₁ generalizing l₂ i with
  | nil => simp
  | cons x xs ih =>
    cases l₂ with
    | nil => simp
    | cons y ys =>
      cases i with
      | zero => simp
      | succ j => simp [ih ys j]

theorem pairs_addReading (SIZE : Nat) (m : MovingAverage) (op : MAOp) :
    (m.addReading SIZE op.toPair.1 op.toPair.2).pairs =
      m.pairs.set m.index op.toPair := by
  cases op <;>
    simp [MovingAverage.pairs, MovingAverage.addReading, zip_set, MAOp.toPair]

theorem inv_init (SIZE : Nat) : WindowInv SIZE [] (MovingAverage.init SIZE) := by
  refine ⟨?_, ?_, ?_, ?_, ?_, ?_, ?_⟩
  · simp [MovingAverage.init]
  · simp [MovingAverage.init]
  · simp [MovingAverage.init]
  · simp [MovingAverage.init, MovingAverage.pairs, windowPairs_nil,
          List.zip_replicate, List.rotate_zero]
  · simp [MovingAverage.init]
  · simp [MovingAverage.init, windowPairs_nil, sumPairs, contribution]
  · simp [MovingAverage.init, windowPairs_nil, countTrues, List.countP_replicate]

theorem window_head (SIZE : Nat) (ops : List MAOp) (m : MovingAverage) (hS : 0 < SIZE)
    (inv : WindowInv SIZE ops m) :
    ∃ wt, windowPairs SIZE ops =
      (m.buffer.getD m.index 0, m.validBuffer.getD m.index false) :: wt := by
  have hi : m.index < SIZE := by rw [inv.hidx]; exact Nat.mod_lt _ hS
  have hlp : m.pairs.length = SIZE := by
    simp [MovingAverage.pairs, inv.hbuf, inv.hvb]
  have hib : m.index < m.buffer.length := by rw [inv.hbuf]; exact hi
  have hiv : m.index < m.validBuffer.length := by rw [inv.hvb]; exact hi
  have hlr : 0 < (m.pairs.rotate m.index).length := by
    rw [List.length_rotate, hlp]; exact hS
  refine ⟨(m.pairs.rotate m.index).drop 1, ?_⟩
  rw [← inv.hwin]
  have hd := List.drop_eq_getElem_cons hlr
  rw [List.drop_zero] at hd
  conv_lhs => rw [hd]
  congr 1
  rw [List.getElem_rotate]
  have hmod : (0 + m.index) % m.pairs.length = m.index := by
    rw [hlp]; simpa using Nat.mod_eq_of_lt hi
  simp only [hmod]
  simp only [MovingAverage.pairs]
  rw [List.getElem_zip, getD_of_lt _ _ _ hib, getD_of_lt _ _ _ hiv]

theorem inv_step (SIZE : Nat) (ops : List MAOp) (m : MovingAverage) (op : MAOp)
    (hS : 0 < SIZE) (inv : WindowInv SIZE ops m) :
    WindowInv SIZE (ops ++ [op]) (m.applyOp SIZE op) := by
  have hi : m.index < SIZE := by rw [inv.hidx]; exact Nat.mod_lt _ hS
  have hlp : m.pairs.length = SIZE := by
    simp [MovingAverage.pairs, inv.hbuf, inv.hvb]
  obtain ⟨wt, hw⟩ := window_head SIZE ops m hS inv
  rw [applyOp_eq]
  refine ⟨?_, ?_, ?_, ?_, ?_, ?_, ?_⟩
  · simp [MovingAverage.addReading, inv.hbuf]
  · simp [MovingAverage.addReading, inv.hvb]
  · simp only [MovingAverage.addReading, inv.hidx, List.length_append,
      List.length_cons, List.length_nil]
    exact Nat.mod_add_mod ops.length SIZE 1
  · show (m.addReading SIZE op.toPair.1 op.toPair.2).pairs.rotate
        ((m.index + 1) % SIZE) = windowPairs SIZE (ops ++ [op])
    rw [pairs_addReading]
    have hlen : (m.pairs.set m.index op.toPair).length = SIZE := by
      simp [hlp]
    have hrm : (m.pairs.set m.index op.toPair).rotate ((m.index + 1) % SIZE) =
        (m.pairs.set m.index op.toPair).rotate (m.index + 1) := by
      conv_lhs => rw [← hlen]
      exact List.rotate_mod _ _
    rw [hrm, ← List.rotate_rotate,
        rotate_set _ _ _ (by rw [hlp]; exact hi), inv.hwin, hw]
    rw [windowPairs_snoc SIZE ops op hS, hw]
    simp only [List.set_cons_zero, List.drop_succ_cons, List.drop_zero]
    simpa using List.rotate_cons_succ wt op.toPair 0
  · simp only [MovingAverage.addReading, List.length_append, List.length_cons,
      List.length_nil]
    rw [inv.hcount]
    split <;> omega
  · show (if op.toPair.2 = true then
        (if m.validBuffer.getD m.index false = true then
          m.sum - m.buffer.getD m.index 0 else m.sum) + op.toPair.1
      else (if m.validBuffer.getD m.index false = true then
          m.sum - m.buffer.getD m.index 0 else m.sum)) =
      sumPairs (windowPairs SIZE (ops ++ [op]))
    rw [windowPairs_snoc SIZE ops op hS, hw, inv.hsum, hw, sumPairs_cons,
        sumPairs_append, List.drop_succ_cons, List.drop_zero,
        sumPairs_cons, sumPairs_nil]
    rcases hv : m.validBuffer.getD m.index false <;> cases op <;>
      simp [contribution, MAOp.toPair]
  · show (if op.toPair.2 = true then
        (if m.validBuffer.getD m.index false = true then
          m.validCount - 1 else m.validCount) + 1
      else (if m.validBuffer.getD m.index false = true then
          m.validCount - 1 else m.validCount)) =
      countTrues (windowPairs SIZE (ops ++ [op]))
    rw [windowPairs_snoc SIZE ops op hS, hw, inv.hvc, hw, countTrues_cons,
        countTrues_append, List.drop_succ_cons, List.drop_zero,
        countTrues_cons, countTrues_nil]
    rcases hv : m.validBuffer.getD m.index false <;> cases op <;>
      simp [MAOp.toPair]

theorem inv_run (SIZE : Nat) (hS : 0 < SIZE) (ops : List MAOp) :
    WindowInv SIZE ops (MovingAverage.run SIZE ops) := by
  induction ops using List.reverseRecOn with
  | nil => exact inv_init SIZE
  | append_singleton l a ih =>
    rw [run_append]
    exact inv_step SIZE l _ a hS ih

theorem windowPairs_perm (SIZE : Nat) (ops : List MAOp) (m : MovingAverage)
    (inv : WindowInv SIZE ops m) : (windowPairs SIZE ops).Perm m.pairs := by
  rw [← inv.hwin]
  exact List.rotate_perm _ _

theorem sum_eq_sumValid (SIZE : Nat) (ops : List MAOp) (m : MovingAverage)
    (inv : WindowInv SIZE ops m) : m.sum = m.sumValid := by
  rw [inv.hsum, MovingAverage.sumValid]
  unfold sumPairs
  exact ((windowPairs_perm SIZE ops m inv).map contribution).sum_eq

theorem validCount_eq_countTrues (SIZE : Nat) (ops : List MAOp) (m : MovingAverage)
    (inv : WindowInv SIZE ops m) : m.validCount = countTrues m.pairs := by
  rw [inv.hvc]
  unfold countTrues
  exact (windowPairs_perm SIZE ops m inv).countP_eq _

theorem countTrues_map_toPair (ops : List MAOp) :
    countTrues (ops.map MAOp.toPair) = ops.countP MAOp.isAdd := by
  unfold countTrues
  rw [List.countP_map]
  congr 1
  funext op
  cases op <;> rfl

theorem countTrues_windowPairs_le (SIZE : Nat) (ops : List MAOp) :
    countTrues (windowPairs SIZE ops) ≤ min ops.length SIZE := by
  apply le_min
  · unfold windowPairs lastN
    calc countTrues ((List.replicate SIZE ((0:ℚ), false) ++
            ops.map MAOp.toPair).drop
          ((List.replicate SIZE ((0:ℚ), false) ++ ops.map MAOp.toPair).length - SIZE))
        ≤ countTrues (List.replicate SIZE ((0:ℚ), false) ++ ops.map MAOp.toPair) :=
          (List.drop_sublist _ _).countP_le _
      _ = countTrues (List.replicate SIZE ((0:ℚ), false)) +
            countTrues (ops.map MAOp.toPair) := countTrues_append _ _
      _ = countTrues (ops.map MAOp.toPair) := by
          simp [countTrues, List.countP_replicate]
      _ = ops.countP MAOp.isAdd := countTrues_map_toPair ops
      _ ≤ ops.length := List.countP_le_length _
  · have h1 : countTrues (windowPairs SIZE ops) ≤ (windowPairs SIZE ops).length :=
      List.countP_le_length _
    rw [length_windowPairs] at h1
    exact h1

theorem countTrues_windowPairs_eq (SIZE : Nat) (ops : List MAOp) :
    countTrues (windowPairs SIZE ops) =
      (lastN (min ops.length SIZE) ops).countP MAOp.isAdd := by
  unfold windowPairs
  by_cases h : ops.length ≤ SIZE
  · have hmin : min ops.length SIZE = ops.length := min_eq_left h
    rw [hmin]
    unfold lastN
    have hdroplen : (List.replicate SIZE ((0:ℚ), false) ++
        ops.map MAOp.toPair).length - SIZE = ops.length := by
      simp
    rw [hdroplen, List.drop_append_of_le_length (by simpa using h),
        countTrues_append, List.drop_replicate]
    have hrep : countTrues (List.replicate (SIZE - ops.length) ((0:ℚ), false)) = 0 := by
      simp [countTrues, List.countP_replicate]
    rw [hrep, Nat.zero_add, countTrues_map_toPair, Nat.sub_self, List.drop_zero]
  · have hlt : SIZE < ops.length := by omega
    have hmin : min ops.length SIZE = SIZE := min_eq_right (by omega)
    rw [hmin]
    unfold lastN
    have hdroplen : (List.replicate SIZE ((0:ℚ), false) ++
        ops.map MAOp.toPair).length - SIZE = ops.length := by
      simp
    rw [hdroplen]
    have hsplit : (List.replicate SIZE ((0:ℚ), false) ++
        ops.map MAOp.toPair).drop ops.length =
        (ops.map MAOp.toPair).drop (ops.length - SIZE) := by
      have h1 : ((List.replicate SIZE ((0:ℚ), false) ++
          ops.map MAOp.toPair).drop SIZE).drop (ops.length - SIZE) =
          (List.replicate SIZE ((0:ℚ), false) ++
            ops.map MAOp.toPair).drop (SIZE + (ops.length - SIZE)) := by
        rw [List.drop_drop]
      have h2 : SIZE + (ops.length - SIZE) = ops.length := by omega
      rw [h2] at h1
      rw [← h1]
      congr 1
      simp
    rw [hsplit, ← List.map_drop, countTrues_map_toPair]

theorem hasValidMajority_iff (m : MovingAverage) :
    (m.hasValidMajority = true ↔ 0 < m.count ∧ m.count / 2 < m.validCount) := by
  unfold MovingAverage.hasValidMajority
  by_cases h : m.count = 0 <;> simp [h] <;> omega

/-- C1: for every sequence of add(v) and addFailure() calls on a
MovingAverage of positive capacity SIZE starting from the freshly
constructed state, validCount ≤ count ≤ SIZE and sum equals the arithmetic
sum of buffer[i] over exactly those slots i with validBuffer[i] true;
moreover, overwriting a previously-valid slot subtracts its value from the
sum and decrements validCount (which is then at least 1) before the new
sample is counted. -/
theorem C1_filter_invariants (SIZE : Nat) (ops : List MAOp) (m : MovingAverage)
    (v : ℚ) (b : Bool) (hS : 0 < SIZE) (hm : m = MovingAverage.run SIZE ops) :
    m.validCount ≤ m.count ∧
    m.count ≤ SIZE ∧
    m.sum = m.sumValid ∧
    (m.validBuffer.getD m.index false = true →
      1 ≤ m.validCount ∧
      (m.addReading SIZE v b).sum =
        m.sum - m.buffer.getD m.index 0 + (if b then v else 0) ∧
      (m.addReading SIZE v b).validCount =
        (m.validCount - 1) + (if b then 1 else 0)) := by
  subst hm
  have inv := inv_run SIZE hS ops
  refine ⟨?_, ?_, ?_, ?_⟩
  · rw [inv.hvc, inv.hcount]
    exact countTrues_windowPairs_le SIZE ops
  · rw [inv.hcount]
    exact min_le_right _ _
  · exact sum_eq_sumValid SIZE ops _ inv
  · intro hslot
    refine ⟨?_, ?_, ?_⟩
    · obtain ⟨wt, hw⟩ := window_head SIZE ops _ hS inv
      rw [inv.hvc, hw, countTrues_cons, hslot]
      simp
    · cases b <;> (simp only [MovingAverage.addReading, hslot]; simp)
    · cases b <;> (simp only [MovingAverage.addReading, hslot]; simp)

/-- Witness for C1: capacity 3, a wrapping call sequence of four calls. -/
theorem C1_filter_invariants_witness :
    0 < 3 ∧
    (MovingAverage.run 3 [MAOp.add 2, MAOp.addFailure, MAOp.add 1, MAOp.add 5] =
      MovingAverage.run 3 [MAOp.add 2, MAOp.addFailure, MAOp.add 1, MAOp.add 5]) ∧
    ((MovingAverage.run 3 [MAOp.add 2, MAOp.addFailure, MAOp.add 1,
        MAOp.add 5]).validCount ≤
      (MovingAverage.run 3 [MAOp.add 2, MAOp.addFailure, MAOp.add 1,
        MAOp.add 5]).count ∧
    (MovingAverage.run 3 [MAOp.add 2, MAOp.addFailure, MAOp.add 1,
        MAOp.add 5]).count ≤ 3 ∧
    (MovingAverage.run 3 [MAOp.add 2, MAOp.addFailure, MAOp.add 1,
        MAOp.add 5]).sum =
      (MovingAverage.run 3 [MAOp.add 2, MAOp.addFailure, MAOp.add 1,
        MAOp.add 5]).sumValid ∧
    ((MovingAverage.run 3 [MAOp.add 2, MAOp.addFailure, MAOp.add 1,
        MAOp.add 5]).validBuffer.getD
        (MovingAverage.run 3 [MAOp.add 2, MAOp.addFailure, MAOp.add 1,
          MAOp.add 5]).index false = true →
      1 ≤ (MovingAverage.run 3 [MAOp.add 2, MAOp.addFailure, MAOp.add 1,
        MAOp.add 5]).validCount ∧
      ((MovingAverage.run 3 [MAOp.add 2, MAOp.addFailure, MAOp.add 1,
          MAOp.add 5]).addReading 3 9 false).sum =
        (MovingAverage.run 3 [MAOp.add 2, MAOp.addFailure, MAOp.add 1,
          MAOp.add 5]).sum -
          (MovingAverage.run 3 [MAOp.add 2, MAOp.addFailure, MAOp.add 1,
            MAOp.add 5]).buffer.getD
            (MovingAverage.run 3 [MAOp.add 2, MAOp.addFailure, MAOp.add 1,
              MAOp.add 5]).index 0 + (if false then (9:ℚ) else 0) ∧
      ((MovingAverage.run 3 [MAOp.add 2, MAOp.addFailure, MAOp.add 1,
          MAOp.add 5]).addReading 3 9 false).validCount =
        ((MovingAverage.run 3 [MAOp.add 2, MAOp.addFailure, MAOp.add 1,
          MAOp.add 5]).validCount - 1) + (if false then 1 else 0))) :=
  ⟨by decide, rfl,
    C1_filter_invariants 3 [MAOp.add 2, MAOp.addFailure, MAOp.add 1, MAOp.add 5]
      (MovingAverage.run 3 [MAOp.add 2, MAOp.addFailure, MAOp.add 1, MAOp.add 5])
      9 false (by decide) rfl⟩

/-- C2: for every reachable MovingAverage state, hasValidMajority() is true
iff count is positive and validCount exceeds the truncating count / 2,
equivalently iff count < 2 * validCount, and validCount counts exactly the
successful adds among the count most recent calls. -/
theorem C2_majority_gate (SIZE : Nat) (ops : List MAOp) (m : MovingAverage)
    (hS : 0 < SIZE) (hm : m = MovingAverage.run SIZE ops) :
    (m.hasValidMajority = true ↔ 0 < m.count ∧ m.count / 2 < m.validCount) ∧
    (m.hasValidMajority = true ↔ 0 < m.count ∧ m.count < 2 * m.validCount) ∧
    m.count = min ops.length SIZE ∧
    m.validCount = (lastN m.count ops).countP MAOp.isAdd ∧
    (m.hasValidMajority = true ↔
      0 < m.count ∧ m.count < 2 * (lastN m.count ops).countP MAOp.isAdd) := by
  subst hm
  have inv := inv_run SIZE hS ops
  have h1 := hasValidMajority_iff (MovingAverage.run SIZE ops)
  have harith : ∀ c w : Nat, (c / 2 < w ↔ c < 2 * w) := by omega
  have hvc : (MovingAverage.run SIZE ops).validCount =
      (lastN (MovingAverage.run SIZE ops).count ops).countP MAOp.isAdd := by
    rw [inv.hvc, inv.hcount]
    exact countTrues_windowPairs_eq SIZE ops
  refine ⟨h1, ?_, inv.hcount, hvc, ?_⟩
  · rw [h1, harith]
  · rw [h1, harith, hvc]

/-- Witness for C2: window size 15, seven successes then eight failures
(the spec's majority-gate scenario). -/
theorem C2_majority_gate_witness :
    0 < 15 ∧
    (MovingAverage.run 15 (List.replicate 7 (MAOp.add 1) ++
        List.replicate 8 MAOp.addFailure) =
      MovingAverage.run 15 (List.replicate 7 (MAOp.add 1) ++
        List.replicate 8 MAOp.addFailure)) ∧
    (((MovingAverage.run 15 (List.replicate 7 (MAOp.add 1) ++
          List.replicate 8 MAOp.addFailure)).hasValidMajority = true ↔
        0 < (MovingAverage.run 15 (List.replicate 7 (MAOp.add 1) ++
          List.replicate 8 MAOp.addFailure)).count ∧
        (MovingAverage.run 15 (List.replicate 7 (MAOp.add 1) ++
          List.replicate 8 MAOp.addFailure)).count / 2 <
          (MovingAverage.run 15 (List.replicate 7 (MAOp.add 1) ++
            List.replicate 8 MAOp.addFailure)).validCount) ∧
      ((MovingAverage.run 15 (List.replicate 7 (MAOp.add 1) ++
          List.replicate 8 MAOp.addFailure)).hasValidMajority = true ↔
        0 < (MovingAverage.run 15 (List.replicate 7 (MAOp.add 1) ++
          List.replicate 8 MAOp.addFailure)).count ∧
        (MovingAverage.run 15 (List.replicate 7 (MAOp.add 1) ++
          List.replicate 8 MAOp.addFailure)).count <
          2 * (MovingAverage.run 15 (List.replicate 7 (MAOp.add 1) ++
            List.replicate 8 MAOp.addFailure)).validCount) ∧
      (MovingAverage.run 15 (List.replicate 7 (MAOp.add 1) ++
          List.replicate 8 MAOp.addFailure)).count =
        min (List.replicate 7 (MAOp.add 1) ++
          List.replicate 8 MAOp.addFailure).length 15 ∧
      (MovingAverage.run 15 (List.replicate 7 (MAOp.add 1) ++
          List.replicate 8 MAOp.addFailure)).validCount =
        (lastN (MovingAverage.run 15 (List.replicate 7 (MAOp.add 1) ++
            List.replicate 8 MAOp.addFailure)).count
          (List.replicate 7 (MAOp.add 1) ++
            List.replicate 8 MAOp.addFailure)).countP MAOp.isAdd ∧
      ((MovingAverage.run 15 (List.replicate 7 (MAOp.add 1) ++
          List.replicate 8 MAOp.addFailure)).hasValidMajority = true ↔
        0 < (MovingAverage.run 15 (List.replicate 7 (MAOp.add 1) ++
          List.replicate 8 MAOp.addFailure)).count ∧
        (MovingAverage.run 15 (List.replicate 7 (MAOp.add 1) ++
          List.replicate 8 MAOp.addFailure)).count <
          2 * (lastN (MovingAverage.run 15 (List.replicate 7 (MAOp.add 1) ++
              List.replicate 8 MAOp.addFailure)).count
            (List.replicate 7 (MAOp.add 1) ++
              List.replicate 8 MAOp.addFailure)).countP MAOp.isAdd)) :=
  ⟨by decide, rfl,
    C2_majority_gate 15
      (List.replicate 7 (MAOp.add 1) ++ List.replicate 8 MAOp.addFailure)
      (MovingAverage.run 15 (List.replicate 7 (MAOp.add 1) ++
        List.replicate 8 MAOp.addFailure)) (by decide) rfl⟩

/-- C9: getAverage() returns sum / validCount when validCount is positive
and 0 when validCount is zero; after SIZE consecutive add(v) calls of the
same value v from the fresh state getAverage() equals v; and a subsequent
addFailure() decreases validCount by exactly 1 iff the evicted slot was
valid. -/
theorem C9_average_roundtrip (SIZE : Nat) (ops : List MAOp) (m : MovingAverage)
    (v : ℚ) (hS : 0 < SIZE) (hm : m = MovingAverage.run SIZE ops) :
    (0 < m.validCount → m.getAverage = m.sum / (m.validCount : ℚ)) ∧
    (m.validCount = 0 → m.getAverage = 0) ∧
    (MovingAverage.run SIZE (List.replicate SIZE (MAOp.add v))).getAverage = v ∧
    ((m.addFailure SIZE).validCount + 1 = m.validCount ↔
      m.validBuffer.getD m.index false = true) := by
  subst hm
  have inv := inv_run SIZE hS ops
  refine ⟨?_, ?_, ?_, ?_⟩
  · intro h
    unfold MovingAverage.getAverage
    rw [if_neg (by omega)]
  · intro h
    simp [MovingAverage.getAverage, h]
  · have invr := inv_run SIZE hS (List.replicate SIZE (MAOp.add v))
    have hw : windowPairs SIZE (List.replicate SIZE (MAOp.add v)) =
        List.replicate SIZE (v, true) := by
      unfold windowPairs lastN
      rw [List.map_replicate]
      have hmap : MAOp.toPair (MAOp.add v) = (v, true) := rfl
      rw [hmap]
      have hlen : (List.replicate SIZE ((0:ℚ), false) ++
          List.replicate SIZE ((v:ℚ), true)).length - SIZE = SIZE := by
        simp
      rw [hlen]
      simpa using List.drop_left (List.replicate SIZE ((0:ℚ), false))
        (List.replicate SIZE ((v:ℚ), true))
    have hsum : (MovingAverage.run SIZE (List.replicate SIZE (MAOp.add v))).sum =
        (SIZE : ℚ) * v := by
      rw [invr.hsum, hw]
      unfold sumPairs
      have hc : contribution ((v : ℚ), true) = v := rfl
      rw [List.map_replicate, hc, List.sum_replicate, nsmul_eq_mul]
    have hvc : (MovingAverage.run SIZE
        (List.replicate SIZE (MAOp.add v))).validCount = SIZE := by
      rw [invr.hvc, hw]
      simp [countTrues, List.countP_replicate]
    unfold MovingAverage.getAverage
    rw [hvc, hsum, if_neg (by omega)]
    exact mul_div_cancel_left₀ v (Nat.cast_ne_zero.mpr (by omega))
  · constructor
    · intro h
      by_contra hslot
      have hslot2 : (MovingAverage.run SIZE ops).validBuffer.getD
          (MovingAverage.run SIZE ops).index false = false := by
        revert hslot
        cases (MovingAverage.run SIZE ops).validBuffer.getD
          (MovingAverage.run SIZE ops).index false <;> simp
      simp only [MovingAverage.addFailure, MovingAverage.addReading, hslot2] at h
      simp at h
    · intro hslot
      obtain ⟨wt, hw⟩ := window_head SIZE ops _ hS inv
      have hvc1 : 1 ≤ (MovingAverage.run SIZE ops).validCount := by
        rw [inv.hvc, hw, countTrues_cons, hslot]
        simp
      simp only [MovingAverage.addFailure, MovingAverage.addReading, hslot]
      simp
      omega

/-- Witness for C9: capacity 3, one failure recorded, value 4. -/
theorem C9_average_roundtrip_witness :
    0 < 3 ∧
    (MovingAverage.run 3 [MAOp.addFailure] = MovingAverage.run 3 [MAOp.addFailure]) ∧
    ((0 < (MovingAverage.run 3 [MAOp.addFailure]).validCount →
      (MovingAverage.run 3 [MAOp.addFailure]).getAverage =
        (MovingAverage.run 3 [MAOp.addFailure]).sum /
          ((MovingAverage.run 3 [MAOp.addFailure]).validCount : ℚ)) ∧
    ((MovingAverage.run 3 [MAOp.addFailure]).validCount = 0 →
      (MovingAverage.run 3 [MAOp.addFailure]).getAverage = 0) ∧
    (MovingAverage.run 3 (List.replicate 3 (MAOp.add 4))).getAverage = 4 ∧
    (((MovingAverage.run 3 [MAOp.addFailure]).addFailure 3).validCount + 1 =
        (MovingAverage.run 3 [MAOp.addFailure]).validCount ↔
      (MovingAverage.run 3 [MAOp.addFailure]).validBuffer.getD
        (MovingAverage.run 3 [MAOp.addFailure]).index false = true)) :=
  ⟨by decide, rfl,
    C9_average_roundtrip 3 [MAOp.addFailure]
      (MovingAverage.run 3 [MAOp.addFailure]) 4 (by decide) rfl⟩

theorem addToAverage_time (s : SensorBase) (v : ℚ) :
    (s.addToAverage v).lastSuccessfulReadTime = s.lastSuccessfulReadTime := by
  unfold SensorBase.addToAverage
  split <;> rfl

theorem addFailureToAverage_time (s : SensorBase) :
    s.addFailureToAverage.lastSuccessfulReadTime = s.lastSuccessfulReadTime := by
  unfold SensorBase.addFailureToAverage
  split <;> rfl

theorem addToAverage_window (s : SensorBase) (ma : MovingAverage) (v : ℚ)
    (hu : s.useMovingAverage = true) (hm : s.movingAverage = some ma) :
    (s.addToAverage v).movingAverage = some (ma.add 15 v) := by
  unfold SensorBase.addToAverage
  rw [hu]
  simp [hm]

theorem addFailureToAverage_window (s : SensorBase) (ma : MovingAverage)
    (hu : s.useMovingAverage = true) (hm : s.movingAverage = some ma) :
    s.addFailureToAverage.movingAverage = some (ma.addFailure 15) := by
  unfold SensorBase.addFailureToAverage
  rw [hu]
  simp [hm]

theorem sht30_read_base (s : SHT30Sensor) (temp humidity : FloatVal) (now : Nat) :
    ((s.read temp humidity now).1).base.lastSuccessfulReadTime =
      s.base.lastSuccessfulReadTime ∧
    ((s.read temp humidity now).1).base.useMovingAverage =
      s.base.useMovingAverage ∧
    ((s.read temp humidity now).1).base.movingAverage =
      s.base.movingAverage ∧
    ((s.read temp humidity now).1).base.initialized = s.base.initialized := by
  unfold SHT30Sensor.read
  cases temp <;> cases humidity <;>
    simp only [FloatVal.isnan, Bool.or_self, Bool.true_or, Bool.or_true,
      Bool.false_or, Bool.or_false] <;>
    split_ifs <;> simp [SHT30Sensor.recordFailure]

theorem hcsr04_read_time (s : HC_SR04Sensor) (duration now : Nat) :
    ((s.read duration now).1).base.lastSuccessfulReadTime =
      s.base.lastSuccessfulReadTime := by
  unfold HC_SR04Sensor.read HC_SR04Sensor.readWithRaw
  split_ifs <;>
    simp [SensorBase.markFailedRead, addToAverage_time,
      addFailureToAverage_time] <;>
    split <;> rfl

theorem ph_read_time (s : PHSensor) (voltage : ℚ) (now : Nat) :
    ((s.read voltage now).1).base.lastSuccessfulReadTime =
      s.base.lastSuccessfulReadTime := by
  unfold PHSensor.read
  split_ifs <;>
    simp [addToAverage_time, addFailureToAverage_time] <;>
    split <;> rfl

/-- C3 (code-bug evidence): no driver's read() ever updates
lastSuccessfulReadTime — the drivers set lastReadSuccess directly and never
call markSuccessfulRead() — so a read() that returns ok does not set the
timestamp to the current clock value; in particular a successful water-level
read at clock 5 leaves the timestamp at its initial value 0.  (The claim's
second half, that a failed read leaves the timestamp unchanged, is subsumed:
no read changes it at all.) -/
theorem C3_timestamp_never_updated :
    (∀ (s : SHT30Sensor) (temp humidity : FloatVal) (now : Nat),
      ((s.read temp humidity now).1).base.lastSuccessfulReadTime =
        s.base.lastSuccessfulReadTime) ∧
    (∀ (s : HC_SR04Sensor) (duration now : Nat),
      ((s.read duration now).1).base.lastSuccessfulReadTime =
        s.base.lastSuccessfulReadTime) ∧
    (∀ (s : PHSensor) (voltage : ℚ) (now : Nat),
      ((s.read voltage now).1).base.lastSuccessfulReadTime =
        s.base.lastSuccessfulReadTime) ∧
    (HC_SR04Sensor.mkInitialized.read 1000 5).2 = true ∧
    ((HC_SR04Sensor.mkInitialized.read 1000 5).1).base.lastSuccessfulReadTime
      = 0 := by
  refine ⟨?_, ?_, ?_, ?_, ?_⟩
  · intro s temp humidity now
    exact (sht30_read_base s temp humidity now).1
  · intro s duration now
    exact hcsr04_read_time s duration now
  · intro s voltage now
    exact ph_read_time s voltage now
  · norm_num [HC_SR04Sensor.read, HC_SR04Sensor.readWithRaw,
      HC_SR04Sensor.mkInitialized, HC_SR04Sensor.mkSensor,
      HC_SR04Sensor.measureRawDistance, HC_SR04Sensor.convertToWaterLevel,
      SensorBase.mkBase, CONTAINER_HEIGHT_CM, MIN_WATER_LEVEL_CM,
      MAX_WATER_LEVEL_CM]
  · rw [hcsr04_read_time]
    rfl

theorem runFresh_lastTime (events : List FreshEvent) (s : SensorBase) :
    (events.foldl SensorBase.applyFresh s).lastSuccessfulReadTime =
      (lastSuccessTime events).getD s.lastSuccessfulReadTime := by
  induction events generalizing s with
  | nil => rfl
  | cons e es ih =>
    rw [List.foldl_cons, ih]
    cases hlt : lastSuccessTime es with
    | some t => simp [lastSuccessTime, hlt]
    | none =>
      cases e with
      | success t =>
        simp [lastSuccessTime, hlt, SensorBase.applyFresh,
          SensorBase.markSuccessfulRead]
      | failure =>
        simp [lastSuccessTime, hlt, SensorBase.applyFresh,
          SensorBase.markFailedRead]

/-- C5 counterexample: the claim as stated fails when the successful read
happens at clock value 0 — there was a successful read, the counter has not
rolled over (now is 0, not below it) and its age 0 is within any limit, yet
isDataFresh returns false, because the code uses the timestamp 0 as the
never-read sentinel. -/
theorem C5_freshness_counterexample :
    lastSuccessTime [FreshEvent.success 0] = some 0 ∧
    0 ≤ 0 ∧ 0 - 0 ≤ 1000 ∧
    (SensorBase.runFresh false [FreshEvent.success 0]).isDataFresh 0 1000 =
      false := by
  refine ⟨rfl, le_refl 0, by decide, rfl⟩

/-- C5 (amended): isDataFresh(maxAgeMs) returns true iff there was a
successful read, the clock value t it was marked at is nonzero (the code
conflates a read at clock 0 with never-read), the counter has not rolled
over since it (t ≤ now), and now - t ≤ maxAgeMs; in particular with the
last success at max_uint - 10 and now = 5 it returns false for every
maxAgeMs. -/
theorem C5_freshness_amended (enableAvg : Bool) (events : List FreshEvent)
    (now maxAgeMs : Nat) :
    ((SensorBase.runFresh enableAvg events).isDataFresh now maxAgeMs = true ↔
      ∃ t, lastSuccessTime events = some t ∧ t ≠ 0 ∧ t ≤ now ∧
        now - t ≤ maxAgeMs) ∧
    (SensorBase.runFresh enableAvg
        [FreshEvent.success (ULONG_MAX - 10)]).isDataFresh 5 maxAgeMs =
      false := by
  constructor
  · have hrun : (SensorBase.runFresh enableAvg events).lastSuccessfulReadTime =
        (lastSuccessTime events).getD 0 := by
      have h := runFresh_lastTime events (SensorBase.mkBase enableAvg)
      simpa [SensorBase.runFresh, SensorBase.mkBase] using h
    unfold SensorBase.isDataFresh
    rw [hrun]
    cases hlt : lastSuccessTime events with
    | none => simp
    | some t =>
      simp only [Option.getD_some]
      by_cases ht : t = 0
      · subst ht
        simp
      · rw [if_neg ht]
        by_cases hnow : now < t
        · rw [if_pos hnow]
          constructor
          · intro h
            simp at h
          · rintro ⟨t', ht', _, hle, _⟩
            injection ht' with ht''
            omega
        · rw [if_neg hnow]
          constructor
          · intro h
            exact ⟨t, rfl, ht, by omega, by simpa using h⟩
          · rintro ⟨t', ht', _, _, hage⟩
            injection ht' with ht''
            subst ht''
            simpa using hage
  · have hlast : (SensorBase.runFresh enableAvg
        [FreshEvent.success (ULONG_MAX - 10)]).lastSuccessfulReadTime =
        ULONG_MAX - 10 := by
      cases enableAvg <;> rfl
    unfold SensorBase.isDataFresh
    rw [hlast]
    rw [if_neg (by decide), if_pos (by decide)]

/-- C4 (code-bug evidence): SHT30 read() records exactly one sample in each
of its two channel windows on every call, and PHSensor read() records
exactly one sample in its window on every call (including the uninitialized
refusal); HC_SR04 read() does so on an initialized sensor, but on an
uninitialized sensor it records nothing in its window — its count stays 0
where the claim requires it to grow by one. -/
theorem C4_one_sample_per_read :
    (∀ (s : SHT30Sensor) (temp humidity : FloatVal) (now : Nat),
      ((∃ x, ((s.read temp humidity now).1).tempAvg =
          s.tempAvg.add TEMP_HUMIDITY_WINDOW x) ∨
        ((s.read temp humidity now).1).tempAvg =
          s.tempAvg.addFailure TEMP_HUMIDITY_WINDOW) ∧
      ((∃ x, ((s.read temp humidity now).1).humidityAvg =
          s.humidityAvg.add TEMP_HUMIDITY_WINDOW x) ∨
        ((s.read temp humidity now).1).humidityAvg =
          s.humidityAvg.addFailure TEMP_HUMIDITY_WINDOW)) ∧
    (∀ (s : PHSensor) (voltage : ℚ) (now : Nat) (ma : MovingAverage),
      s.base.useMovingAverage = true → s.base.movingAverage = some ma →
      ((∃ x, ((s.read voltage now).1).base.movingAverage =
          some (ma.add 15 x)) ∨
        ((s.read voltage now).1).base.movingAverage =
          some (ma.addFailure 15))) ∧
    (∀ (s : HC_SR04Sensor) (duration now : Nat) (ma : MovingAverage),
      s.base.initialized = true →
      s.base.useMovingAverage = true → s.base.movingAverage = some ma →
      ((∃ x, ((s.read duration now).1).base.movingAverage =
          some (ma.add 15 x)) ∨
        ((s.read duration now).1).base.movingAverage =
          some (ma.addFailure 15))) ∧
    (HC_SR04Sensor.mkSensor.base.initialized = false ∧
      ((HC_SR04Sensor.mkSensor.read 1000 5).1).base.movingAverage =
        some (MovingAverage.init 15) ∧
      (MovingAverage.init 15).count = 0 ∧
      (∀ x : ℚ, ((MovingAverage.init 15).add 15 x).count = 1) ∧
      ((MovingAverage.init 15).addFailure 15).count = 1) := by
  refine ⟨?_, ?_, ?_, rfl, rfl, rfl, fun x => rfl, rfl⟩
  · intro s temp humidity now
    constructor <;>
      (unfold SHT30Sensor.read
       cases temp <;> cases humidity <;> dsimp only [FloatVal.isnan] <;>
        split_ifs <;>
        first
          | exact Or.inr rfl
          | exact Or.inl ⟨_, rfl⟩)
  · intro s voltage now ma hu hm
    unfold PHSensor.read
    dsimp only
    split_ifs
    · exact Or.inr (addFailureToAverage_window s.base ma hu hm)
    · exact Or.inr (addFailureToAverage_window s.base ma hu hm)
    · exact Or.inl ⟨_, addToAverage_window s.base ma _ hu hm⟩
  · intro s duration now ma hinit hu hm
    unfold HC_SR04Sensor.read HC_SR04Sensor.readWithRaw
    dsimp only
    rw [if_neg (by rw [hinit]; simp)]
    split_ifs
    · exact Or.inr (addFailureToAverage_window s.base ma hu hm)
    · exact Or.inr (addFailureToAverage_window s.base ma hu hm)
    · exact Or.inl ⟨_, addToAverage_window s.base ma _ hu hm⟩

/-- Witness for C4: the PHSensor conjunct applied to the freshly constructed
(uninitialized) pH sensor, discharging its window hypotheses. -/
theorem C4_one_sample_per_read_witness :
    PHSensor.mkSensor.base.useMovingAverage = true ∧
    PHSensor.mkSensor.base.movingAverage = some (MovingAverage.init 15) ∧
    ((∃ x, ((PHSensor.mkSensor.read 1420 0).1).base.movingAverage =
        some ((MovingAverage.init 15).add 15 x)) ∨
      ((PHSensor.mkSensor.read 1420 0).1).base.movingAverage =
        some ((MovingAverage.init 15).addFailure 15)) :=
  ⟨rfl, rfl,
    C4_one_sample_per_read.2.1 PHSensor.mkSensor 1420 0
      (MovingAverage.init 15) rfl rfl⟩

theorem pairInRange_val (tv hv : ℚ) :
    pairInRange (FloatVal.val tv) (FloatVal.val hv) ↔
      ((TEMP_MIN ≤ tv ∧ tv ≤ TEMP_MAX) ∧
        (HUMIDITY_MIN ≤ hv ∧ hv ≤ HUMIDITY_MAX)) := by
  simp [pairInRange]

/-- C6: on an initialized SHT30, if either reading is NaN or outside its
configured range then read() records a failure on both the temperature and
the humidity window and returns not-ok; otherwise both values are added as
valid to their respective windows and read() returns ok. -/
theorem C6_paired_validation (s : SHT30Sensor) (temp humidity : FloatVal)
    (t h : ℚ) (now : Nat) (hinit : s.base.initialized = true) :
    (¬ pairInRange temp humidity →
      (s.read temp humidity now).2 = false ∧
      ((s.read temp humidity now).1).tempAvg =
        s.tempAvg.addFailure TEMP_HUMIDITY_WINDOW ∧
      ((s.read temp humidity now).1).humidityAvg =
        s.humidityAvg.addFailure TEMP_HUMIDITY_WINDOW) ∧
    (temp = FloatVal.val t → humidity = FloatVal.val h →
      pairInRange temp humidity →
      (s.read temp humidity now).2 = true ∧
      ((s.read temp humidity now).1).tempAvg =
        s.tempAvg.add TEMP_HUMIDITY_WINDOW t ∧
      ((s.read temp humidity now).1).humidityAvg =
        s.humidityAvg.add TEMP_HUMIDITY_WINDOW h) := by
  have hinit' : ¬ (s.base.initialized = false) := by rw [hinit]; simp
  constructor
  · intro hbad
    unfold SHT30Sensor.read
    rw [if_neg hinit']
    cases temp with
    | nan =>
      rw [if_pos (by simp [FloatVal.isnan])]
      exact ⟨rfl, rfl, rfl⟩
    | val tv =>
      cases humidity with
      | nan =>
        rw [if_pos (by simp [FloatVal.isnan])]
        exact ⟨rfl, rfl, rfl⟩
      | val hv =>
        rw [if_neg (by simp [FloatVal.isnan])]
        dsimp only
        rw [pairInRange_val] at hbad
        by_cases h1 : tv < TEMP_MIN ∨ TEMP_MAX < tv
        · rw [if_pos h1]
          exact ⟨rfl, rfl, rfl⟩
        · by_cases h2 : hv < HUMIDITY_MIN ∨ HUMIDITY_MAX < hv
          · rw [if_neg h1, if_pos h2]
            exact ⟨rfl, rfl, rfl⟩
          · exfalso
            push_neg at h1 h2
            exact hbad ⟨⟨h1.1, h1.2⟩, ⟨h2.1, h2.2⟩⟩
  · intro ht hh hgood
    subst ht
    subst hh
    rw [pairInRange_val] at hgood
    unfold SHT30Sensor.read
    rw [if_neg hinit', if_neg (by simp [FloatVal.isnan])]
    dsimp only
    rw [if_neg (by push_neg; exact ⟨hgood.1.1, hgood.1.2⟩),
      if_neg (by push_neg; exact ⟨hgood.2.1, hgood.2.2⟩)]
    exact ⟨rfl, rfl, rfl⟩

/-- Witness for C6: an initialized sensor reading 20 degrees and 50 percent
humidity, both in range. -/
theorem C6_paired_validation_witness :
    SHT30Sensor.mkInitialized.base.initialized = true ∧
    (FloatVal.val (20:ℚ) = FloatVal.val (20:ℚ)) ∧
    (FloatVal.val (50:ℚ) = FloatVal.val (50:ℚ)) ∧
    pairInRange (FloatVal.val 20) (FloatVal.val 50) ∧
    ((SHT30Sensor.mkInitialized.read (FloatVal.val 20) (FloatVal.val 50) 0).2 =
      true ∧
    ((SHT30Sensor.mkInitialized.read (FloatVal.val 20)
        (FloatVal.val 50) 0).1).tempAvg =
      SHT30Sensor.mkInitialized.tempAvg.add TEMP_HUMIDITY_WINDOW 20 ∧
    ((SHT30Sensor.mkInitialized.read (FloatVal.val 20)
        (FloatVal.val 50) 0).1).humidityAvg =
      SHT30Sensor.mkInitialized.humidityAvg.add TEMP_HUMIDITY_WINDOW 50) :=
  ⟨rfl, rfl, rfl,
    ⟨⟨20, rfl, by norm_num [TEMP_MIN], by norm_num [TEMP_MAX]⟩,
      ⟨50, rfl, by norm_num [HUMIDITY_MIN], by norm_num [HUMIDITY_MAX]⟩⟩,
    (C6_paired_validation SHT30Sensor.mkInitialized (FloatVal.val 20)
        (FloatVal.val 50) 20 50 0 rfl).2 rfl rfl
      ⟨⟨20, rfl, by norm_num [TEMP_MIN], by norm_num [TEMP_MAX]⟩,
        ⟨50, rfl, by norm_num [HUMIDITY_MIN], by norm_num [HUMIDITY_MAX]⟩⟩⟩

/-- C7: HC_SR04 read() on an initialized sensor computes the distance as
duration times 0.343 over 2 millimeters, the water level as
CONTAINER_HEIGHT_CM minus a tenth of the distance; a zero duration always
records a failure and returns not-ok, an out-of-range level records a
failure and returns not-ok, and an in-range level is added to the average
with an ok result.  Concretely a raw distance of 5 mm gives level 37.5 cm
(out of range, failure) and a raw distance of 100 mm gives level 28 cm
(valid, added). -/
theorem C7_water_level (s : HC_SR04Sensor) (duration now : Nat)
    (ma : MovingAverage) (hinit : s.base.initialized = true)
    (hu : s.base.useMovingAverage = true)
    (hma : s.base.movingAverage = some ma) :
    (duration = 0 →
      (s.read duration now).2 = false ∧
      ((s.read duration now).1).base.movingAverage =
        some (ma.addFailure 15)) ∧
    (0 < duration →
      HC_SR04Sensor.measureRawDistance duration =
        (duration : ℚ) * 0.343 / 2 ∧
      ((CONTAINER_HEIGHT_CM -
            HC_SR04Sensor.measureRawDistance duration / 10 <
              MIN_WATER_LEVEL_CM ∨
          MAX_WATER_LEVEL_CM <
            CONTAINER_HEIGHT_CM -
              HC_SR04Sensor.measureRawDistance duration / 10) →
        (s.read duration now).2 = false ∧
        ((s.read duration now).1).base.movingAverage =
          some (ma.addFailure 15)) ∧
      ((MIN_WATER_LEVEL_CM ≤
            CONTAINER_HEIGHT_CM -
              HC_SR04Sensor.measureRawDistance duration / 10 ∧
          CONTAINER_HEIGHT_CM -
              HC_SR04Sensor.measureRawDistance duration / 10 ≤
            MAX_WATER_LEVEL_CM) →
        (s.read duration now).2 = true ∧
        ((s.read duration now).1).base.movingAverage =
          some (ma.add 15 (CONTAINER_HEIGHT_CM -
            HC_SR04Sensor.measureRawDistance duration / 10)))) ∧
    HC_SR04Sensor.convertToWaterLevel 5 = 37.5 ∧
    MAX_WATER_LEVEL_CM < HC_SR04Sensor.convertToWaterLevel 5 ∧
    (HC_SR04Sensor.mkInitialized.readWithRaw 5).2 = false ∧
    HC_SR04Sensor.convertToWaterLevel 100 = 28 ∧
    (HC_SR04Sensor.mkInitialized.readWithRaw 100).2 = true ∧
    ((HC_SR04Sensor.mkInitialized.readWithRaw 100).1).base.movingAverage =
      some ((MovingAverage.init 15).add 15 28) := by
  have hinit' : ¬ (s.base.initialized = false) := by rw [hinit]; simp
  refine ⟨?_, ?_, ?_, ?_, ?_, ?_, ?_, ?_⟩
  · intro hd
    subst hd
    unfold HC_SR04Sensor.read HC_SR04Sensor.readWithRaw
      HC_SR04Sensor.measureRawDistance
    rw [if_neg hinit']
    dsimp only
    rw [if_pos rfl, if_pos (by norm_num)]
    exact ⟨rfl, addFailureToAverage_window s.base ma hu hma⟩
  · intro hd
    have hd0 : ¬ (duration = 0) := by omega
    have hraw : HC_SR04Sensor.measureRawDistance duration =
        (duration : ℚ) * 0.343 / 2 := by
      unfold HC_SR04Sensor.measureRawDistance
      rw [if_neg hd0]
    have hpos : ¬ (HC_SR04Sensor.measureRawDistance duration < 0) := by
      rw [hraw, not_lt]
      positivity
    have hconv : HC_SR04Sensor.convertToWaterLevel
        (HC_SR04Sensor.measureRawDistance duration) =
        CONTAINER_HEIGHT_CM -
          HC_SR04Sensor.measureRawDistance duration / 10 := by
      unfold HC_SR04Sensor.convertToWaterLevel
      rw [if_neg hpos]
    refine ⟨hraw, ?_, ?_⟩
    · intro hout
      unfold HC_SR04Sensor.read HC_SR04Sensor.readWithRaw
      rw [if_neg hinit']
      dsimp only
      rw [if_neg hpos, hconv, if_pos hout]
      exact ⟨rfl, addFailureToAverage_window s.base ma hu hma⟩
    · intro hin
      unfold HC_SR04Sensor.read HC_SR04Sensor.readWithRaw
      rw [if_neg hinit']
      dsimp only
      rw [if_neg hpos, hconv,
        if_neg (by push_neg; exact ⟨hin.1, hin.2⟩)]
      exact ⟨rfl, addToAverage_window s.base ma _ hu hma⟩
  · norm_num [HC_SR04Sensor.convertToWaterLevel, CONTAINER_HEIGHT_CM]
  · norm_num [HC_SR04Sensor.convertToWaterLevel, CONTAINER_HEIGHT_CM,
      MAX_WATER_LEVEL_CM]
  · norm_num [HC_SR04Sensor.readWithRaw, HC_SR04Sensor.convertToWaterLevel,
      HC_SR04Sensor.mkInitialized, HC_SR04Sensor.mkSensor, SensorBase.mkBase,
      CONTAINER_HEIGHT_CM, MIN_WATER_LEVEL_CM, MAX_WATER_LEVEL_CM]
  · norm_num [HC_SR04Sensor.convertToWaterLevel, CONTAINER_HEIGHT_CM]
  · norm_num [HC_SR04Sensor.readWithRaw, HC_SR04Sensor.convertToWaterLevel,
      HC_SR04Sensor.mkInitialized, HC_SR04Sensor.mkSensor, SensorBase.mkBase,
      CONTAINER_HEIGHT_CM, MIN_WATER_LEVEL_CM, MAX_WATER_LEVEL_CM]
  · have h28 : HC_SR04Sensor.convertToWaterLevel 100 = 28 := by
      norm_num [HC_SR04Sensor.convertToWaterLevel, CONTAINER_HEIGHT_CM]
    unfold HC_SR04Sensor.readWithRaw
    dsimp only
    rw [if_neg (by norm_num), h28,
      if_neg (by norm_num [MIN_WATER_LEVEL_CM, MAX_WATER_LEVEL_CM])]
    exact addToAverage_window _ (MovingAverage.init 15) 28 rfl rfl

/-- Witness for C7: an initialized sensor and an echo duration of 1000
microseconds (raw distance 171.5 mm, level 20.85 cm, in range). -/
theorem C7_water_level_witness :
    HC_SR04Sensor.mkInitialized.base.initialized = true ∧
    HC_SR04Sensor.mkInitialized.base.useMovingAverage = true ∧
    HC_SR04Sensor.mkInitialized.base.movingAverage =
      some (MovingAverage.init 15) ∧
    0 < 1000 ∧
    (MIN_WATER_LEVEL_CM ≤
        CONTAINER_HEIGHT_CM -
          HC_SR04Sensor.measureRawDistance 1000 / 10 ∧
      CONTAINER_HEIGHT_CM -
          HC_SR04Sensor.measureRawDistance 1000 / 10 ≤
        MAX_WATER_LEVEL_CM) ∧
    ((HC_SR04Sensor.mkInitialized.read 1000 5).2 = true ∧
      ((HC_SR04Sensor.mkInitialized.read 1000 5).1).base.movingAverage =
        some ((MovingAverage.init 15).add 15 (CONTAINER_HEIGHT_CM -
          HC_SR04Sensor.measureRawDistance 1000 / 10))) := by
  have hin : MIN_WATER_LEVEL_CM ≤
      CONTAINER_HEIGHT_CM - HC_SR04Sensor.measureRawDistance 1000 / 10 ∧
      CONTAINER_HEIGHT_CM - HC_SR04Sensor.measureRawDistance 1000 / 10 ≤
        MAX_WATER_LEVEL_CM := by
    norm_num [HC_SR04Sensor.measureRawDistance, CONTAINER_HEIGHT_CM,
      MIN_WATER_LEVEL_CM, MAX_WATER_LEVEL_CM]
  exact ⟨rfl, rfl, rfl, by decide, hin,
    ((C7_water_level HC_SR04Sensor.mkInitialized 1000 5
        (MovingAverage.init 15) rfl rfl rfl).2.1 (by decide)).2.2 hin⟩

/-- C8: the pH driver maps an averaged voltage V in millivolts to pH by the
two-segment piecewise-linear rule anchored at the three calibration
voltages; with the configured points V=1420 gives pH 7, V=1650 gives pH
5.5, and V=1190 gives pH 263/31, which is 8.48 to two decimals. -/
theorem C8_ph_piecewise (V : ℚ) :
    (PH_CAL_MID < V →
      PHSensor.readPHFromVoltage V =
        7 - 3 * (V - PH_CAL_MID) / (PH_CAL_LOW - PH_CAL_MID)) ∧
    (V ≤ PH_CAL_MID →
      PHSensor.readPHFromVoltage V =
        7 - 3 * (V - PH_CAL_MID) / (PH_CAL_MID - PH_CAL_HIGH)) ∧
    PHSensor.readPHFromVoltage 1420 = 7 ∧
    PHSensor.readPHFromVoltage 1650 = 5.5 ∧
    PHSensor.readPHFromVoltage 1190 = 263 / 31 ∧
    |PHSensor.readPHFromVoltage 1190 - 8.48| < 1 / 100 := by
  refine ⟨?_, ?_, ?_, ?_, ?_, ?_⟩
  · intro h
    unfold PHSensor.readPHFromVoltage
    rw [if_pos h, div_mul_eq_mul_div, mul_comm 3 (V - PH_CAL_MID),
      mul_comm (V - PH_CAL_MID) 3]
  · intro h
    unfold PHSensor.readPHFromVoltage
    rw [if_neg (not_lt.mpr h), div_mul_eq_mul_div,
      mul_comm 3 (V - PH_CAL_MID), mul_comm (V - PH_CAL_MID) 3]
  · norm_num [PHSensor.readPHFromVoltage, PH_CAL_MID, PH_CAL_HIGH]
  · norm_num [PHSensor.readPHFromVoltage, PH_CAL_MID, PH_CAL_LOW]
  · norm_num [PHSensor.readPHFromVoltage, PH_CAL_MID, PH_CAL_HIGH]
  · have h3 : PHSensor.readPHFromVoltage 1190 - 8.48 = 3 / 775 := by
      norm_num [PHSensor.readPHFromVoltage, PH_CAL_MID, PH_CAL_HIGH]
    rw [h3, abs_of_nonneg (by norm_num)]
    norm_num

/-- Witness for C8: the acidic-branch hypothesis discharged at V = 1650. -/
theorem C8_ph_piecewise_witness :
    PH_CAL_MID < (1650 : ℚ) ∧
    PHSensor.readPHFromVoltage 1650 =
      7 - 3 * ((1650 : ℚ) - PH_CAL_MID) / (PH_CAL_LOW - PH_CAL_MID) :=
  ⟨by norm_num [PH_CAL_MID],
    (C8_ph_piecewise 1650).1 (by norm_num [PH_CAL_MID])⟩

theorem sht30_events_base (events : List SHT30Event) (s : SHT30Sensor) :
    ((events.foldl SHT30Sensor.applyEvent s).base.useMovingAverage =
      s.base.useMovingAverage) ∧
    ((events.foldl SHT30Sensor.applyEvent s).base.movingAverage =
      s.base.movingAverage) := by
  induction events generalizing s with
  | nil => exact ⟨rfl, rfl⟩
  | cons e es ih =>
    rw [List.foldl_cons]
    have h := ih (s.applyEvent e)
    have he : (s.applyEvent e).base.useMovingAverage =
        s.base.useMovingAverage ∧
        (s.applyEvent e).base.movingAverage = s.base.movingAverage := by
      cases e with
      | start ok => cases ok <;> exact ⟨rfl, rfl⟩
      | read t hval now =>
        exact ⟨(sht30_read_base s t hval now).2.1,
          (sht30_read_base s t hval now).2.2.1⟩
    exact ⟨h.1.trans he.1, h.2.trans he.2⟩

theorem hasValidMajority_fallback (b : SensorBase)
    (hb : b.useMovingAverage = false) :
    SensorBase.hasValidMajority b = b.lastReadSuccess := by
  unfold SensorBase.hasValidMajority
  rw [hb]

theorem getSuccessRate_fallback (b : SensorBase)
    (hb : b.useMovingAverage = false) :
    SensorBase.getSuccessRate b = (if b.lastReadSuccess then 100 else 0) := by
  unfold SensorBase.getSuccessRate
  rw [hb]

/-- C10: the SHT30 driver is constructed with the base moving average
disabled, so for every reachable SHT30 state the inherited trait-level
hasValidMajority() and getSuccessRate() never consult the per-channel
windows: they return the last read's success flag (true / 100 after a
successful read, false / 0 otherwise), while per-channel gating goes
through hasValidTemperatureMajority() and hasValidHumidityMajority(),
which consult the channel windows. -/
theorem C10_sht30_base_gating (events : List SHT30Event) :
    (SHT30Sensor.runEvents events).base.useMovingAverage = false ∧
    (SHT30Sensor.runEvents events).base.movingAverage = none ∧
    SensorBase.hasValidMajority (SHT30Sensor.runEvents events).base =
      (SHT30Sensor.runEvents events).base.lastReadSuccess ∧
    SensorBase.getSuccessRate (SHT30Sensor.runEvents events).base =
      (if (SHT30Sensor.runEvents events).base.lastReadSuccess then 100
        else 0) ∧
    (SHT30Sensor.runEvents events).hasValidTemperatureMajority =
      (SHT30Sensor.runEvents events).tempAvg.hasValidMajority ∧
    (SHT30Sensor.runEvents events).hasValidHumidityMajority =
      (SHT30Sensor.runEvents events).humidityAvg.hasValidMajority ∧
    SensorBase.hasValidMajority (SHT30Sensor.runEvents [SHT30Event.start true,
        SHT30Event.read (FloatVal.val 20) (FloatVal.val 50) 0]).base =
      true ∧
    SensorBase.getSuccessRate (SHT30Sensor.runEvents [SHT30Event.start true,
        SHT30Event.read (FloatVal.val 20) (FloatVal.val 50) 0]).base =
      100 ∧
    SensorBase.hasValidMajority (SHT30Sensor.runEvents []).base = false ∧
    SensorBase.getSuccessRate (SHT30Sensor.runEvents []).base = 0 := by
  have hu : (SHT30Sensor.runEvents events).base.useMovingAverage = false :=
    (sht30_events_base events SHT30Sensor.mkSensor).1
  have hm : (SHT30Sensor.runEvents events).base.movingAverage = none :=
    (sht30_events_base events SHT30Sensor.mkSensor).2
  have huc : (SHT30Sensor.runEvents [SHT30Event.start true,
      SHT30Event.read (FloatVal.val 20)
        (FloatVal.val 50) 0]).base.useMovingAverage = false :=
    (sht30_events_base [SHT30Event.start true,
      SHT30Event.read (FloatVal.val 20) (FloatVal.val 50) 0]
      SHT30Sensor.mkSensor).1
  have hconc : (SHT30Sensor.runEvents [SHT30Event.start true,
      SHT30Event.read (FloatVal.val 20)
        (FloatVal.val 50) 0]).base.lastReadSuccess = true := by
    norm_num [SHT30Sensor.runEvents, SHT30Sensor.applyEvent, SHT30Sensor.read,
      SHT30Sensor.beginSensor, SHT30Sensor.mkSensor, SensorBase.mkBase,
      FloatVal.isnan, TEMP_MIN, TEMP_MAX, HUMIDITY_MIN, HUMIDITY_MAX]
  refine ⟨hu, hm, hasValidMajority_fallback _ hu, getSuccessRate_fallback _ hu,
    rfl, rfl, ?_, ?_, ?_, ?_⟩
  · rw [hasValidMajority_fallback _ huc, hconc]
  · rw [getSuccessRate_fallback _ huc, hconc]
    simp
  · rfl
  · rfl

end ESP
